import Mathlib

/-!
Verification of the multi-source response-cache-and-aggregation subsystem of the
agentic-underwriting backend.

The Python modules embedded here:
  app/services/cache/fabric_cache.py
  app/services/agents/fabric_property_summary.py
  app/services/agents/fabric_zip_stats.py
  app/services/agents/fabric_risk_assessment.py
and the pydantic models of app/models/schemas.py that they use.

Modelling conventions:
  * JSON-like Python values are the inductive `JVal`; Python floats are
    modelled as rationals (the aggregation arithmetic of the source stays
    exact on the inputs the claims quantify over).
  * UTC timestamps (`datetime.utcnow()`, isoformat strings) are modelled as
    integers counting hours, so `timedelta(hours=ttl)` is integer addition.
  * The file-backed cache directory is a map from file name (the cache key)
    to the parsed record that the file holds.
  * A Python function that can raise an uncaught exception is modelled with
    `Except String`; a `try/except` block that swallows errors is modelled by
    matching on the `Option`/`Except` result of the protected code.
  * The external Fabric agent call is an input of the embedded functions: a
    `raw : Option JVal`, `none` standing for a transport failure or timeout
    (an exception raised by the client, which the callers catch).
-/

set_option maxHeartbeats 1000000

namespace AU

/-- JSON-like Python value. Python floats are modelled as rationals. -/
inductive JVal where
  | null : JVal
  | bool : Bool → JVal
  | int : Int → JVal
  | num : ℚ → JVal
  | str : String → JVal
  | arr : List JVal → JVal
  | obj : List (String × JVal) → JVal

/-- Python dict lookup (`d[k]` / `d.get(k)`), first binding wins; dicts built
by the source have distinct keys, so this matches Python semantics. -/
def objLookup : List (String × JVal) → String → Option JVal
  | [], _ => none
  | (k, v) :: rest, key => if k = key then some v else objLookup rest key

/-- Python `d.get(key, default)` on a value expected to be a dict.
`none` models the `AttributeError` raised when the value is not a dict. -/
def JVal.dictGet (v : JVal) (key : String) (dflt : JVal) : Option JVal :=
  match v with
  | .obj fields => some ((objLookup fields key).getD dflt)
  | _ => none

/-- Python truthiness of a value (`if v:`). -/
def JVal.truthy : JVal → Bool
  | .null => false
  | .bool b => b
  | .int n => n != 0
  | .num q => q != 0
  | .str s => s != ""
  | .arr xs => !xs.isEmpty
  | .obj fs => !fs.isEmpty

/-- Python `for x in v`: lists iterate elements, dicts iterate keys, strings
iterate one-character strings; other values raise `TypeError` (`none`). -/
def pyIterate : JVal → Option (List JVal)
  | .arr xs => some xs
  | .obj fs => some (fs.map (fun p => JVal.str p.1))
  | .str s => some (s.data.map (fun c => JVal.str (Char.toString c)))
  | _ => none

/-- The value if it is a dict (used for `isinstance(row, dict)` checks). -/
def jObj : JVal → Option (List (String × JVal))
  | .obj fs => some fs
  | _ => none

/-- The value if it is a list. -/
def jArr : JVal → Option (List JVal)
  | .arr xs => some xs
  | _ => none

/-! ### String ordering

Python `sorted` compares strings lexicographically by code point and tuples
componentwise. `String.decidableLT` does not reduce in the kernel, so the
embedding uses an equivalent executable lexicographic order on code points. -/

/-- Lexicographic order on code-point lists. -/
def lexLe : List Nat → List Nat → Bool
  | [], _ => true
  | _ :: _, [] => false
  | a :: as, b :: bs => if a < b then true else if b < a then false else lexLe as bs

/-- Code points of a string. -/
def codes (s : String) : List Nat := s.data.map Char.toNat

/-- String comparison as Python performs it (by code points). -/
def strLeB (a b : String) : Bool := lexLe (codes a) (codes b)

/-- Ordering of `(key, value)` pairs as Python `sorted(kwargs.items())`
compares tuples of strings: by key, then by value. -/
def paramLEb (a b : String × String) : Bool :=
  if a.1 = b.1 then strLeB a.2 b.2 else strLeB a.1 b.1

def paramLE (a b : String × String) : Prop := paramLEb a b = true

instance : DecidableRel paramLE := fun a b => inferInstanceAs (Decidable (paramLEb a b = true))

/-- Model of `sorted(kwargs.items())` in `_get_cache_key`. -/
def sortParams (l : List (String × String)) : List (String × String) :=
  List.insertionSort paramLE l


/-! ### fabric_cache.py -/

def DEFAULT_TTL_HOURS : ℤ := 72

/-- Key builder `_get_cache_key`: join `fabric_<function_id>`, the case id and the truthy
parameter values in key-sorted order, `"_"`-separated, plus `".json"`.
Call sites pass string parameter values, so values are modelled as `String`
(truthiness is non-emptiness) and `str(v)` is the identity. -/
def get_cache_key (function_id case_id : String) (kwargs : List (String × String)) : String :=
  let parts := ["fabric_" ++ function_id, case_id] ++
    ((sortParams kwargs).filter (fun p => p.2 != "")).map (fun p => p.2)
  String.intercalate "_" parts ++ ".json"

/-- One cache file, as serialized by `set_cached_response`. -/
structure CacheRecord where
  function_id : String
  case_id : String
  response_data : JVal
  cached_at : ℤ
  cache_expires_at : ℤ
  cache_params : List (String × String)

/-- The cache directory: file name to stored record. -/
def CacheState := String → Option CacheRecord

def emptyCache : CacheState := fun _ => none

/-- Writer `set_cached_response`: serialize the payload with TTL metadata under the
deterministic key, overwriting any previous record. -/
def set_cached_response (σ : CacheState) (now : ℤ) (function_id case_id : String)
    (response_data : JVal) (ttl_hours : ℤ) (kwargs : List (String × String)) : CacheState :=
  Function.update σ (get_cache_key function_id case_id kwargs)
    (some { function_id := function_id, case_id := case_id,
            response_data := response_data, cached_at := now,
            cache_expires_at := now + ttl_hours, cache_params := kwargs })

/-- Reader `get_cached_response`: return the record unless the file is missing or
`datetime.utcnow() > expires_at`; an expired file is unlinked (lazy eviction).
The function also returns the possibly-updated cache state. -/
def get_cached_response (σ : CacheState) (now : ℤ) (function_id case_id : String)
    (kwargs : List (String × String)) : Option CacheRecord × CacheState :=
  let key := get_cache_key function_id case_id kwargs
  match σ key with
  | none => (none, σ)
  | some entry =>
    if entry.cache_expires_at < now then (none, Function.update σ key none)
    else (some entry, σ)

/-- Deleter `invalidate_cache`: unlink the record if present, reporting whether one
existed. -/
def invalidate_cache (σ : CacheState) (function_id case_id : String)
    (kwargs : List (String × String)) : Bool × CacheState :=
  let key := get_cache_key function_id case_id kwargs
  match σ key with
  | none => (false, σ)
  | some _ => (true, Function.update σ key none)


/-! ### Python and pydantic coercions -/

/-- Python `int(float)` truncates toward zero. -/
def ratTruncate (q : ℚ) : ℤ := if 0 ≤ q then ⌊q⌋ else -⌊-q⌋

/-- Digits of a decimal literal to a natural number; `none` on a non-digit. -/
def digitsToNat : List Char → Option ℕ :=
  fun cs => cs.foldlM (fun acc c => if c.isDigit then some (acc * 10 + (c.toNat - 48)) else none) 0

/-- Python `int(s)` on a string: optional sign followed by digits. -/
def pyIntOfString (s : String) : Option ℤ :=
  match s.data with
  | '-' :: rest => if rest.isEmpty then none else (digitsToNat rest).map (fun n => -(n : ℤ))
  | '+' :: rest => if rest.isEmpty then none else (digitsToNat rest).map (fun n => (n : ℤ))
  | cs => if cs.isEmpty then none else (digitsToNat cs).map (fun n => (n : ℤ))

/-- Unsigned decimal literal `digits[.digits]` as a rational. -/
def decimalToRat (cs : List Char) : Option ℚ :=
  let intPart := cs.takeWhile (fun c => c != '.')
  match cs.dropWhile (fun c => c != '.') with
  | [] => if intPart.isEmpty then none else (digitsToNat intPart).map (fun n => (n : ℚ))
  | _ :: frac =>
    if intPart.isEmpty && frac.isEmpty then none
    else do
      let ip ← if intPart.isEmpty then some 0 else digitsToNat intPart
      let fp ← if frac.isEmpty then some 0 else digitsToNat frac
      some ((ip : ℚ) + (fp : ℚ) / (10 : ℚ) ^ frac.length)

/-- Python `float(s)` on a string (decimal literals, as the source meets them). -/
def pyFloatOfString (s : String) : Option ℚ :=
  match s.data with
  | '-' :: rest => (decimalToRat rest).map Neg.neg
  | '+' :: rest => decimalToRat rest
  | cs => decimalToRat cs

/-- Python `int(v)`: `none` models the `TypeError`/`ValueError` raised on
non-numeric values (bools are ints in Python). -/
def pyInt : JVal → Option ℤ
  | .bool b => some (if b then 1 else 0)
  | .int n => some n
  | .num q => some (ratTruncate q)
  | .str s => pyIntOfString s
  | _ => none

/-- Python `float(v)`. -/
def pyFloat : JVal → Option ℚ
  | .bool b => some (if b then 1 else 0)
  | .int n => some (n : ℚ)
  | .num q => some q
  | .str s => pyFloatOfString s
  | _ => none

/-- Coercion `_coerce_int` of fabric_risk_assessment.py: `None` for `None`, ints pass
through, otherwise best-effort `int(value)` with `None` on failure. -/
def _coerce_int : JVal → Option ℤ
  | .null => none
  | .bool b => some (if b then 1 else 0)
  | .int n => some n
  | .num q => some (ratTruncate q)
  | .str s => pyIntOfString s
  | _ => none

/-- pydantic v2 lax coercion to `str` (no numeric-to-string coercion). -/
def pydStr : JVal → Option String
  | .str s => some s
  | _ => none

/-- pydantic v2 lax coercion to `int`: ints, integral floats, numeric strings. -/
def pydInt : JVal → Option ℤ
  | .int n => some n
  | .num q => if q.den = 1 then some q.num else none
  | .str s => pyIntOfString s
  | _ => none

/-- pydantic v2 lax coercion to `float`. -/
def pydFloat : JVal → Option ℚ
  | .int n => some (n : ℚ)
  | .num q => some q
  | .str s => pyFloatOfString s
  | _ => none

/-- pydantic `Optional[str]` field value (absent and `None` both give `none`). -/
def pydOptStr : Option JVal → Option (Option String)
  | none => some none
  | some .null => some none
  | some (.str s) => some (some s)
  | some _ => none

/-- pydantic `Optional[int]` field value. -/
def pydOptInt : Option JVal → Option (Option ℤ)
  | none => some none
  | some .null => some none
  | some v => (pydInt v).map some

/-- Timestamp field: isoformat strings are modelled as integers. -/
def pydTimestamp : JVal → Option ℤ
  | .int n => some n
  | _ => none

/-- An `Optional[Any]` field value. -/
def jOptAny : Option JVal → Option JVal
  | none => none
  | some .null => none
  | some v => some v

/-- Python `v == "lit"` for a JSON value against a string literal. -/
def jStrEq (v : JVal) (s : String) : Bool :=
  match v with
  | .str t => t == s
  | _ => false

def optStrJ : Option String → JVal
  | none => JVal.null
  | some s => JVal.str s

def optIntJ : Option ℤ → JVal
  | none => JVal.null
  | some n => JVal.int n

/-! ### schemas.py: FabricCountyClaimRow / FabricPropertySummary -/

/-- Single row from the Fabric property summary response. -/
structure FabricCountyClaimRow where
  state : Option String
  county_code : String
  loss_year : ℤ
  paid_total : ℚ
  claims_count : ℤ
  avg_paid_per_claim : ℚ

/-- Validation `FabricCountyClaimRow(**row_dict)`: pydantic validation of one raw row;
`none` models the exception the per-row try/except catches. -/
def parseCountyClaimRow (v : JVal) : Option FabricCountyClaimRow :=
  match v with
  | .obj fs => do
    let st ← pydOptStr (objLookup fs "state")
    let cc ← (objLookup fs "county_code").bind pydStr
    let ly ← (objLookup fs "loss_year").bind pydInt
    let pt ← (objLookup fs "paid_total").bind pydFloat
    let cl ← (objLookup fs "claims_count").bind pydInt
    let ap ← (objLookup fs "avg_paid_per_claim").bind pydFloat
    some { state := st, county_code := cc, loss_year := ly, paid_total := pt,
           claims_count := cl, avg_paid_per_claim := ap }
  | _ => none

def dumpCountyClaimRow (r : FabricCountyClaimRow) : JVal :=
  JVal.obj [("state", optStrJ r.state), ("county_code", JVal.str r.county_code),
            ("loss_year", JVal.int r.loss_year), ("paid_total", JVal.num r.paid_total),
            ("claims_count", JVal.int r.claims_count),
            ("avg_paid_per_claim", JVal.num r.avg_paid_per_claim)]

/-- Function A report. -/
structure FabricPropertySummary where
  rows : List FabricCountyClaimRow
  total_counties : ℤ
  total_claims : ℤ
  avg_paid_overall : ℚ
  cached_at : ℤ
  cache_expires_at : ℤ
  raw_response : Option JVal

/-- Validation `FabricPropertySummary(**d)`: pydantic validation of a cached payload. -/
def parsePropertySummary (v : JVal) : Option FabricPropertySummary :=
  match v with
  | .obj fs => do
    let rowsJ ← (objLookup fs "rows").bind jArr
    let rows ← rowsJ.mapM parseCountyClaimRow
    let tc ← (objLookup fs "total_counties").bind pydInt
    let tcl ← (objLookup fs "total_claims").bind pydInt
    let avg ← (objLookup fs "avg_paid_overall").bind pydFloat
    let ca ← (objLookup fs "cached_at").bind pydTimestamp
    let ce ← (objLookup fs "cache_expires_at").bind pydTimestamp
    some { rows := rows, total_counties := tc, total_claims := tcl, avg_paid_overall := avg,
           cached_at := ca, cache_expires_at := ce,
           raw_response := jOptAny (objLookup fs "raw_response") }
  | _ => none

def dumpPropertySummary (s : FabricPropertySummary) : JVal :=
  JVal.obj [("rows", JVal.arr (s.rows.map dumpCountyClaimRow)),
            ("total_counties", JVal.int s.total_counties),
            ("total_claims", JVal.int s.total_claims),
            ("avg_paid_overall", JVal.num s.avg_paid_overall),
            ("cached_at", JVal.int s.cached_at),
            ("cache_expires_at", JVal.int s.cache_expires_at),
            ("raw_response", (s.raw_response).getD JVal.null)]

/-! ### fabric_property_summary.py -/

/-- The aggregation of `get_property_summary` (lines 99-116): distinct county
count, total claims, total paid, claims-weighted average (0 unless the claim
total is positive), TTL metadata. -/
def propertyAggregate (rows : List FabricCountyClaimRow) (now : ℤ) (r : JVal) :
    FabricPropertySummary :=
  { rows := rows,
    total_counties := (((rows.map FabricCountyClaimRow.county_code).dedup).length : ℤ),
    total_claims := (rows.map FabricCountyClaimRow.claims_count).sum,
    avg_paid_overall :=
      if 0 < (rows.map FabricCountyClaimRow.claims_count).sum
      then (rows.map FabricCountyClaimRow.paid_total).sum
           / (((rows.map FabricCountyClaimRow.claims_count).sum : ℤ) : ℚ)
      else 0,
    cached_at := now, cache_expires_at := now + 72, raw_response := some r }

/-- The fetch-and-aggregate path of `get_property_summary` (lines 64-134, all
inside one try/except, so it never raises): status checks, per-row parsing
with invalid rows skipped, aggregation, cache write. -/
def property_fetch (σ : CacheState) (now : ℤ) (raw : Option JVal)
    (case_id state county_code : String) : Option FabricPropertySummary × CacheState :=
  match raw with
  | none => (none, σ)
  | some r =>
    match r.dictGet "status" JVal.null with
    | none => (none, σ)
    | some st =>
      if jStrEq st "error" || jStrEq st "no_data" then (none, σ)
      else
        match (r.dictGet "response" (JVal.arr [])).bind pyIterate with
        | none => (none, σ)
        | some elems =>
          let rows := elems.filterMap parseCountyClaimRow
          if rows.isEmpty then (none, σ)
          else
            let summary := propertyAggregate rows now r
            (some summary,
             set_cached_response σ now "A" case_id (dumpPropertySummary summary) 72
               [("state", state), ("county", county_code)])

/-- Service `get_property_summary`: consult the cache unless `force_refresh`; a hit
whose payload fails validation falls through to a fresh fetch (the validation
is inside its own try/except). No path raises. -/
def get_property_summary (σ : CacheState) (now : ℤ) (raw : Option JVal)
    (case_id state county_code : String) (force_refresh : Bool) :
    Except String (Option FabricPropertySummary × CacheState) :=
  let kwargs := [("state", state), ("county", county_code)]
  match (if force_refresh then (none, σ) else get_cached_response σ now "A" case_id kwargs) with
  | (some entry, σ1) =>
    match parsePropertySummary entry.response_data with
    | some s => .ok (some s, σ1)
    | none => .ok (property_fetch σ1 now raw case_id state county_code)
  | (none, σ1) => .ok (property_fetch σ1 now raw case_id state county_code)

/-- Wrapper `refresh_property_summary`: invalidate, then force-refresh. -/
def refresh_property_summary (σ : CacheState) (now : ℤ) (raw : Option JVal)
    (case_id state county_code : String) :
    Except String (Option FabricPropertySummary × CacheState) :=
  let σ2 := (invalidate_cache σ "A" case_id [("state", state), ("county", county_code)]).2
  get_property_summary σ2 now raw case_id state county_code true

/-! ### schemas.py / fabric_zip_stats.py -/

def CACHE_TTL_HOURS : ℤ := 72

/-- Function B report. -/
structure FabricZipClaimStats where
  zip_code : String
  years : ℤ
  claim_frequency : ℤ
  avg_loss : ℚ
  cached_at : ℤ
  cache_expires_at : ℤ
  raw_response : Option JVal

/-- Validation `FabricZipClaimStats(**d)`: pydantic validation of a cached payload. -/
def parseZipClaimStats (v : JVal) : Option FabricZipClaimStats :=
  match v with
  | .obj fs => do
    let zc ← (objLookup fs "zip_code").bind pydStr
    let yr ← (objLookup fs "years").bind pydInt
    let cf ← (objLookup fs "claim_frequency").bind pydInt
    let al ← (objLookup fs "avg_loss").bind pydFloat
    let ca ← (objLookup fs "cached_at").bind pydTimestamp
    let ce ← (objLookup fs "cache_expires_at").bind pydTimestamp
    some { zip_code := zc, years := yr, claim_frequency := cf, avg_loss := al,
           cached_at := ca, cache_expires_at := ce,
           raw_response := jOptAny (objLookup fs "raw_response") }
  | _ => none

def dumpZipClaimStats (s : FabricZipClaimStats) : JVal :=
  JVal.obj [("zip_code", JVal.str s.zip_code),
            ("years", JVal.int s.years),
            ("claim_frequency", JVal.int s.claim_frequency),
            ("avg_loss", JVal.num s.avg_loss),
            ("cached_at", JVal.int s.cached_at),
            ("cache_expires_at", JVal.int s.cache_expires_at),
            ("raw_response", (s.raw_response).getD JVal.null)]

/-- One iteration of the aggregation loop of `get_zip_stats` (lines 90-95):
`none` models a coercion failure (`int(...)`/`float(...)` raising), which is
caught only by the outer try/except and so aborts the whole fetch. -/
def zip_agg_step (acc : ℤ × ℚ) (row : JVal) : Option (ℤ × ℚ) := do
  let ccv ← row.dictGet "claims_count" (JVal.int 0)
  let cc ← pyInt ccv
  let alv ← row.dictGet "avg_loss" (JVal.int 0)
  let al ← pyFloat alv
  some (acc.1 + cc, acc.2 + al * (cc : ℚ))

/-- The whole aggregation loop: total claims and reconstructed total paid. -/
def zip_aggregate (resp : List JVal) : Option (ℤ × ℚ) :=
  resp.foldlM zip_agg_step (0, 0)

/-- The report built at lines 97-108: claims-weighted average loss (0 unless
the claim total is positive) plus TTL metadata. -/
def zipStatsOf (zip_code : String) (years total_claims : ℤ) (total_paid : ℚ)
    (now : ℤ) (r : JVal) : FabricZipClaimStats :=
  { zip_code := zip_code, years := years, claim_frequency := total_claims,
    avg_loss := if 0 < total_claims then total_paid / ((total_claims : ℤ) : ℚ) else 0,
    cached_at := now, cache_expires_at := now + CACHE_TTL_HOURS, raw_response := some r }

/-- The fetch-and-aggregate path of `get_zip_stats` (lines 65-127, all inside
one try/except): status checks, aggregation loop, cache write. -/
def zip_fetch (σ : CacheState) (now : ℤ) (raw : Option JVal)
    (case_id zip_code : String) (years : ℤ) : Option FabricZipClaimStats × CacheState :=
  match raw with
  | none => (none, σ)
  | some r =>
    match r.dictGet "status" JVal.null with
    | none => (none, σ)
    | some st =>
      if jStrEq st "error" || jStrEq st "no_data" then (none, σ)
      else
        match (r.dictGet "response" (JVal.arr [])).bind pyIterate with
        | none => (none, σ)
        | some elems =>
          match zip_aggregate elems with
          | none => (none, σ)
          | some (total_claims, total_paid) =>
            let stats := zipStatsOf zip_code years total_claims total_paid now r
            (some stats,
             set_cached_response σ now "B" case_id (dumpZipClaimStats stats) CACHE_TTL_HOURS
               [("zip_code", zip_code), ("years", toString years ++ "y")])

/-- Service `get_zip_stats`: consult the cache unless `force_refresh`. A hit is fed to
`FabricZipClaimStats(**response_data)` OUTSIDE any try/except (line 60), so a
payload that fails validation raises to the caller (`.error`). -/
def get_zip_stats (σ : CacheState) (now : ℤ) (raw : Option JVal)
    (case_id zip_code : String) (years : ℤ) (force_refresh : Bool) :
    Except String (Option FabricZipClaimStats × CacheState) :=
  let kwargs := [("zip_code", zip_code), ("years", toString years ++ "y")]
  match (if force_refresh then (none, σ) else get_cached_response σ now "B" case_id kwargs) with
  | (some entry, σ1) =>
    match parseZipClaimStats entry.response_data with
    | some s => .ok (some s, σ1)
    | none => .error "pydantic ValidationError: FabricZipClaimStats"
  | (none, σ1) => .ok (zip_fetch σ1 now raw case_id zip_code years)

/-! ### schemas.py / fabric_risk_assessment.py -/

/-- Generic table response returned by the Fabric Data Agent. -/
structure FabricAgentTable where
  status : String
  column_count : Option ℤ
  row_count : Option ℤ
  summary : Option String
  comments : Option String
  response : List (List (String × JVal))
  column_keys : List String

/-- Derivation `_derive_column_keys`: first-seen-order union of the row keys. -/
def _derive_column_keys (rows : List (List (String × JVal))) : List String :=
  rows.foldl
    (fun acc row =>
      row.foldl (fun acc2 kv => if acc2.contains kv.1 then acc2 else acc2 ++ [kv.1]) acc)
    []

/-- Python `str(key)` for keys passing `isinstance(key, (str, int, float))`; Python
bools are ints. Decimal rendering of a non-integral float is approximated
(no claim depends on it). -/
def pyStrScalar : JVal → Option String
  | .str s => some s
  | .int n => some (toString n)
  | .bool b => some (if b then "True" else "False")
  | .num q => some (if q.den = 1 then toString q.num ++ ".0"
                    else toString q.num ++ "e" ++ toString q.den)
  | _ => none

/-- Line 131: `status = data.get("status") or "unknown"`. -/
def agentStatusVal (fs : List (String × JVal)) : JVal :=
  let statusRaw := (objLookup fs "status").getD JVal.null
  if statusRaw.truthy then statusRaw else JVal.str "unknown"

/-- Lines 132-140: keep only the dict-shaped entries of `data.get("response")`
when it is a list; otherwise no rows. -/
def agentKeptRows (fs : List (String × JVal)) : List (List (String × JVal)) :=
  match (objLookup fs "response").getD JVal.null with
  | .arr xs => xs.filterMap jObj
  | _ => []

/-- Lines 142-146: source-supplied scalar column keys, else derived. -/
def agentColumnKeys (fs : List (String × JVal)) : List String :=
  match (objLookup fs "column_keys").getD JVal.null with
  | .arr ks => ks.filterMap pyStrScalar
  | _ => _derive_column_keys (agentKeptRows fs)

/-- Line 152: `row_count=_coerce_int(data.get("rows")) or len(rows)`; Python
`or` falls through to the kept-row count on BOTH `None` and `0`. -/
def agentRowCount (fs : List (String × JVal)) : ℤ :=
  match _coerce_int ((objLookup fs "rows").getD JVal.null) with
  | some n => if n ≠ 0 then n else ((agentKeptRows fs).length : ℤ)
  | none => ((agentKeptRows fs).length : ℤ)

/-- Normalizer `_build_agent_table`: normalize a raw agent payload into a
`FabricAgentTable`; `none` when the input is not a dict or the pydantic
construction fails (caught at lines 148-161). -/
def _build_agent_table (data : JVal) : Option FabricAgentTable :=
  match data with
  | .obj fs =>
    match pydStr (agentStatusVal fs), pydOptStr (objLookup fs "summary"),
        pydOptStr (objLookup fs "comments") with
    | some status, some summaryF, some commentsF =>
      some { status := status,
             column_count := _coerce_int ((objLookup fs "columns").getD JVal.null),
             row_count := some (agentRowCount fs),
             summary := summaryF, comments := commentsF,
             response := agentKeptRows fs, column_keys := agentColumnKeys fs }
    | _, _, _ => none
  | _ => none

/-- Predicate `_table_has_rows`. -/
def _table_has_rows : Option FabricAgentTable → Bool
  | none => false
  | some t => !t.response.isEmpty

def dumpAgentTable (t : FabricAgentTable) : JVal :=
  JVal.obj [("status", JVal.str t.status),
            ("column_count", optIntJ t.column_count),
            ("row_count", optIntJ t.row_count),
            ("summary", optStrJ t.summary),
            ("comments", optStrJ t.comments),
            ("response", JVal.arr (t.response.map JVal.obj)),
            ("column_keys", JVal.arr (t.column_keys.map JVal.str))]

/-- First-alias lookup for pydantic `AliasChoices`. -/
def lookupAlias (fs : List (String × JVal)) (k1 k2 : String) : Option JVal :=
  match objLookup fs k1 with
  | some v => some v
  | none => objLookup fs k2

/-- Validation `FabricAgentTable(**d)` / nested validation of a dumped table. -/
def parseAgentTable (v : JVal) : Option FabricAgentTable :=
  match v with
  | .obj fs => do
    let status ← (objLookup fs "status").bind pydStr
    let cc ← pydOptInt (lookupAlias fs "columns" "column_count")
    let rc ← pydOptInt (lookupAlias fs "rows" "row_count")
    let sm ← pydOptStr (objLookup fs "summary")
    let cm ← pydOptStr (objLookup fs "comments")
    let resp ← match objLookup fs "response" with
               | none => some []
               | some (.arr xs) => xs.mapM jObj
               | some _ => none
    let cks ← match objLookup fs "column_keys" with
              | none => some []
              | some (.arr xs) => xs.mapM pydStr
              | some _ => none
    some { status := status, column_count := cc, row_count := rc, summary := sm,
           comments := cm, response := resp, column_keys := cks }
  | _ => none

/-- Function C report. -/
structure FabricRiskAssessment where
  severity_table : Option FabricAgentTable
  large_losses_table : Option FabricAgentTable
  county_code : String
  min_loss_threshold : ℚ
  cached_at : ℤ
  cache_expires_at : ℤ
  raw_severity : Option JVal
  raw_large_losses : Option JVal

def parseOptTable (x : Option JVal) : Option (Option FabricAgentTable) :=
  match x with
  | none => some none
  | some .null => some none
  | some v => (parseAgentTable v).map some

/-- Validation `FabricRiskAssessment(**d)`: pydantic validation of an upgraded payload. -/
def parseRiskAssessment (v : JVal) : Option FabricRiskAssessment :=
  match v with
  | .obj fs => do
    let st ← parseOptTable (objLookup fs "severity_table")
    let lt ← parseOptTable (objLookup fs "large_losses_table")
    let cc ← (objLookup fs "county_code").bind pydStr
    let ml ← (objLookup fs "min_loss_threshold").bind pydFloat
    let ca ← (objLookup fs "cached_at").bind pydTimestamp
    let ce ← (objLookup fs "cache_expires_at").bind pydTimestamp
    some { severity_table := st, large_losses_table := lt, county_code := cc,
           min_loss_threshold := ml, cached_at := ca, cache_expires_at := ce,
           raw_severity := jOptAny (objLookup fs "raw_severity"),
           raw_large_losses := jOptAny (objLookup fs "raw_large_losses") }
  | _ => none

def optTableJ : Option FabricAgentTable → JVal
  | none => JVal.null
  | some t => dumpAgentTable t

def dumpRiskAssessment (a : FabricRiskAssessment) : JVal :=
  JVal.obj [("severity_table", optTableJ a.severity_table),
            ("large_losses_table", optTableJ a.large_losses_table),
            ("county_code", JVal.str a.county_code),
            ("min_loss_threshold", JVal.num a.min_loss_threshold),
            ("cached_at", JVal.int a.cached_at),
            ("cache_expires_at", JVal.int a.cache_expires_at),
            ("raw_severity", (a.raw_severity).getD JVal.null),
            ("raw_large_losses", (a.raw_large_losses).getD JVal.null)]

/-! ### fabric_risk_assessment.py: payload upgrader and service -/

def objContains (fs : List (String × JVal)) (k : String) : Bool := (objLookup fs k).isSome

/-- Python dict assignment: replace in place, or append a new key. -/
def objSet (fs : List (String × JVal)) (k : String) (v : JVal) : List (String × JVal) :=
  if objContains fs k then fs.map (fun p => if p.1 = k then (k, v) else p)
  else fs ++ [(k, v)]

/-- Python `d.pop(k, None)`, result state only. -/
def objPop (fs : List (String × JVal)) (k : String) : List (String × JVal) :=
  fs.filter (fun p => p.1 != k)

/-- The `FabricAgentTable(status="success", ...)` built from a legacy flat-row
list (lines 190-196 and 203-209). `.error` models the exception raised when
the rows value is not a list of dicts (`len(rows[0])`, `row.keys()` or the
pydantic validation failing); this code runs outside any try/except. -/
def legacyRowsTable (rowsVal : JVal) : Except String FabricAgentTable :=
  match rowsVal with
  | .arr xs =>
    match xs.mapM jObj with
    | some rows =>
      .ok { status := "success",
            column_count := (rows.head?).map (fun r => (r.length : ℤ)),
            row_count := some ((xs.length : ℤ)),
            summary := none, comments := none,
            response := rows,
            column_keys := _derive_column_keys rows }
    | none => .error "TypeError: legacy rows are not all dicts"
  | _ => .error "TypeError: legacy rows value is not a list"

/-- One half of `_upgrade_cached_payload`: synthesize `tableKey` from the raw
payload under `rawKey` or the legacy flat rows under `legacyKey`. -/
def upgradeHalf (fs : List (String × JVal)) (tableKey rawKey legacyKey : String) :
    Except String (List (String × JVal)) :=
  if objContains fs tableKey then .ok fs
  else
    match _build_agent_table ((objLookup fs rawKey).getD JVal.null) with
    | some t => .ok (objSet fs tableKey (dumpAgentTable t))
    | none =>
      let legacyV := (objLookup fs legacyKey).getD JVal.null
      if legacyV.truthy then
        match legacyRowsTable legacyV with
        | .ok t => .ok (objSet fs tableKey (dumpAgentTable t))
        | .error e => .error e
      else .ok (objSet fs tableKey JVal.null)

/-- Upgrader `_upgrade_cached_payload`: normalize legacy cached payloads to the latest
schema; strips the deprecated `severity_rows` / `large_losses` keys. -/
def _upgrade_cached_payload (data : JVal) : Except String JVal :=
  match data with
  | .obj fs =>
    match upgradeHalf fs "severity_table" "raw_severity" "severity_rows" with
    | .error e => .error e
    | .ok fs1 =>
      match upgradeHalf fs1 "large_losses_table" "raw_large_losses" "large_losses" with
      | .error e => .error e
      | .ok fs2 => .ok (JVal.obj (objPop (objPop fs2 "severity_rows") "large_losses"))
  | _ => .ok (JVal.obj [])

/-- The fetch path of `get_risk_assessment` (lines 64-118, inside one
try/except): build both tables, fail only if neither has rows. -/
def risk_fetch (σ : CacheState) (now : ℤ) (raw : Option JVal)
    (case_id county_code : String) (min_loss : ℤ) :
    Option FabricRiskAssessment × CacheState :=
  match raw with
  | none => (none, σ)
  | some r =>
    match r.dictGet "severity" (JVal.obj []), r.dictGet "large_losses" (JVal.obj []) with
    | some severity_data, some large_losses_data =>
      let severity_table := _build_agent_table severity_data
      let large_losses_table := _build_agent_table large_losses_data
      if !(_table_has_rows severity_table) && !(_table_has_rows large_losses_table) then
        (none, σ)
      else
        let assessment : FabricRiskAssessment :=
          { severity_table := severity_table, large_losses_table := large_losses_table,
            county_code := county_code, min_loss_threshold := (min_loss : ℚ),
            cached_at := now, cache_expires_at := now + CACHE_TTL_HOURS,
            raw_severity := some severity_data, raw_large_losses := some large_losses_data }
        (some assessment,
         set_cached_response σ now "C" case_id (dumpRiskAssessment assessment)
           CACHE_TTL_HOURS [("county", county_code), ("min_loss", toString min_loss)])
    | _, _ => (none, σ)

/-- Service `get_risk_assessment`: consult the cache unless `force_refresh`. A hit is
passed through `_upgrade_cached_payload` and `FabricRiskAssessment(**...)`
OUTSIDE any try/except (lines 58-59), so either step can raise (`.error`). -/
def get_risk_assessment (σ : CacheState) (now : ℤ) (raw : Option JVal)
    (case_id county_code : String) (min_loss : ℤ) (force_refresh : Bool) :
    Except String (Option FabricRiskAssessment × CacheState) :=
  let kwargs := [("county", county_code), ("min_loss", toString min_loss)]
  match (if force_refresh then (none, σ) else get_cached_response σ now "C" case_id kwargs) with
  | (some entry, σ1) =>
    match _upgrade_cached_payload entry.response_data with
    | .error e => .error e
    | .ok upgraded =>
      match parseRiskAssessment upgraded with
      | some a => .ok (some a, σ1)
      | none => .error "pydantic ValidationError: FabricRiskAssessment"
  | (none, σ1) => .ok (risk_fetch σ1 now raw case_id county_code min_loss)

/-! ### Builders for concrete agent payloads, and evaluation lemmas -/

/-- An agent payload with a successful status and the given response rows. -/
def mkAgentPayload (rows : List JVal) : JVal :=
  JVal.obj [("status", JVal.str "success"), ("response", JVal.arr rows)]

/-- A well-formed ZIP-stat row. -/
def mkZipRow (cc : ℤ) (al : ℚ) : JVal :=
  JVal.obj [("claims_count", JVal.int cc), ("avg_loss", JVal.num al)]

/-- The legacy flat-row fields that the upgrader can consume without raising:
falsy, or a list of dicts. -/
def legacyRowsOk (v : JVal) : Bool :=
  !v.truthy ||
    (match v with
     | .arr xs => xs.all (fun x => (jObj x).isSome)
     | _ => false)


/-! ### Helper lemmas -/

theorem lexLe_total : ∀ x y : List Nat, lexLe x y = true ∨ lexLe y x = true := by
  intro x
  induction x with
  | nil => intro y; exact Or.inl rfl
  | cons a as ih =>
    intro y
    match y with
    | [] => exact Or.inr rfl
    | b :: bs =>
      by_cases h1 : a < b
      · left; simp [lexLe, h1]
      · by_cases h2 : b < a
        · right; simp [lexLe, h2]
        · rcases ih bs with h | h
          · left; simp [lexLe, h1, h2, h]
          · right; simp [lexLe, h1, h2, h]

theorem lexLe_trans : ∀ x y z : List Nat,
    lexLe x y = true → lexLe y z = true → lexLe x z = true := by
  intro x
  induction x with
  | nil => intro y z _ _; rfl
  | cons a as ih =>
    intro y z hxy hyz
    match y, z with
    | [], _ => simp [lexLe] at hxy
    | _ :: _, [] => simp [lexLe] at hyz
    | b :: bs, c :: cs =>
      simp only [lexLe] at hxy hyz ⊢
      by_cases h1 : a < b
      · by_cases h2 : b < c
        · simp [Nat.lt_trans h1 h2]
        · by_cases h3 : c < b
          · simp [h2, h3] at hyz
          · have hbc : b = c := Nat.le_antisymm (Nat.le_of_not_lt h3) (Nat.le_of_not_lt h2)
            have hac : a < c := hbc ▸ h1
            simp [hac]
      · by_cases h1b : b < a
        · simp [h1, h1b] at hxy
        · have hab : a = b := Nat.le_antisymm (Nat.le_of_not_lt h1b) (Nat.le_of_not_lt h1)
          rw [if_neg h1, if_neg h1b] at hxy
          subst hab
          by_cases h2 : a < c
          · simp [h2]
          · by_cases h3 : c < a
            · simp [h2, h3] at hyz
            · rw [if_neg h2, if_neg h3] at hyz
              simp [h2, h3, ih bs cs hxy hyz]

theorem lexLe_antisymm : ∀ x y : List Nat,
    lexLe x y = true → lexLe y x = true → x = y := by
  intro x
  induction x with
  | nil =>
    intro y _ hyx
    match y with
    | [] => rfl
    | _ :: _ => simp [lexLe] at hyx
  | cons a as ih =>
    intro y hxy hyx
    match y with
    | [] => simp [lexLe] at hxy
    | b :: bs =>
      simp only [lexLe] at hxy hyx
      by_cases h1 : a < b
      · simp [h1, Nat.lt_asymm h1] at hyx
      · by_cases h2 : b < a
        · simp [h1, h2] at hxy
        · have hab : a = b := Nat.le_antisymm (Nat.le_of_not_lt h2) (Nat.le_of_not_lt h1)
          simp only [if_neg h1, if_neg h2] at hxy hyx
          subst hab
          exact congrArg (a :: ·) (ih bs hxy hyx)

theorem char_toNat_injective : Function.Injective Char.toNat :=
  fun _ _ h => Char.eq_of_val_eq (UInt32.toNat.inj h)

theorem codes_inj {a b : String} (h : codes a = codes b) : a = b := by
  have hd : a.data = b.data := List.map_injective_iff.mpr char_toNat_injective h
  cases a; cases b; exact congrArg String.mk hd

theorem strLeB_antisymm {a b : String} (h1 : strLeB a b = true) (h2 : strLeB b a = true) :
    a = b :=
  codes_inj (lexLe_antisymm _ _ h1 h2)

instance : IsTotal (String × String) paramLE := by
  constructor
  intro a b
  unfold paramLE paramLEb
  by_cases h : a.1 = b.1
  · rw [if_pos h, if_pos h.symm]
    exact lexLe_total _ _
  · rw [if_neg h, if_neg (fun e => h e.symm)]
    exact lexLe_total _ _

instance : IsTrans (String × String) paramLE := by
  constructor
  intro a b c hab hbc
  unfold paramLE paramLEb at hab hbc ⊢
  by_cases h1 : a.1 = b.1
  · by_cases h2 : b.1 = c.1
    · have h3 : a.1 = c.1 := h1.trans h2
      rw [if_pos h1] at hab
      rw [if_pos h2] at hbc
      rw [if_pos h3]
      exact lexLe_trans _ _ _ hab hbc
    · have h3 : ¬ a.1 = c.1 := fun e => h2 (h1.symm.trans e)
      rw [if_neg h2] at hbc
      rw [if_neg h3, h1]
      exact hbc
  · by_cases h2 : b.1 = c.1
    · have h3 : ¬ a.1 = c.1 := fun e => h1 (e.trans h2.symm)
      rw [if_neg h1] at hab
      rw [if_neg h3, ← h2]
      exact hab
    · rw [if_neg h1] at hab
      rw [if_neg h2] at hbc
      by_cases h3 : a.1 = c.1
      · have hba : strLeB b.1 a.1 = true := by rw [h3]; exact hbc
        exact absurd (strLeB_antisymm hab hba) h1
      · rw [if_neg h3]
        exact lexLe_trans _ _ _ hab hbc

instance : IsAntisymm (String × String) paramLE := by
  constructor
  intro a b hab hba
  unfold paramLE paramLEb at hab hba
  by_cases h1 : a.1 = b.1
  · rw [if_pos h1] at hab
    rw [if_pos h1.symm] at hba
    exact Prod.ext h1 (strLeB_antisymm hab hba)
  · rw [if_neg h1] at hab
    rw [if_neg (fun e => h1 e.symm)] at hba
    exact absurd (strLeB_antisymm hab hba) h1

theorem sortParams_perm_eq {p q : List (String × String)} (h : p.Perm q) :
    sortParams p = sortParams q :=
  List.eq_of_perm_of_sorted
    ((List.perm_insertionSort _ p).trans (h.trans (List.perm_insertionSort _ q).symm))
    (List.sorted_insertionSort _ p) (List.sorted_insertionSort _ q)
theorem get_cache_key_perm (function_id case_id : String)
    {p q : List (String × String)} (h : p.Perm q) :
    get_cache_key function_id case_id p = get_cache_key function_id case_id q := by
  unfold get_cache_key
  rw [sortParams_perm_eq h]

theorem property_fetch_payload (σ : CacheState) (now : ℤ) (case_id st cc : String)
    (elems : List JVal) :
    property_fetch σ now (some (mkAgentPayload elems)) case_id st cc
      = (if (elems.filterMap parseCountyClaimRow).isEmpty then (none, σ)
         else
           (some (propertyAggregate (elems.filterMap parseCountyClaimRow) now
                    (mkAgentPayload elems)),
            set_cached_response σ now "A" case_id
              (dumpPropertySummary (propertyAggregate (elems.filterMap parseCountyClaimRow)
                now (mkAgentPayload elems))) 72 [("state", st), ("county", cc)])) := by
  simp [property_fetch, mkAgentPayload, JVal.dictGet, objLookup, jStrEq, pyIterate]

theorem zip_fetch_payload (σ : CacheState) (now : ℤ) (case_id zc : String) (yrs : ℤ)
    (elems : List JVal) :
    zip_fetch σ now (some (mkAgentPayload elems)) case_id zc yrs
      = (match zip_aggregate elems with
         | none => (none, σ)
         | some (tc, tp) =>
           (some (zipStatsOf zc yrs tc tp now (mkAgentPayload elems)),
            set_cached_response σ now "B" case_id
              (dumpZipClaimStats (zipStatsOf zc yrs tc tp now (mkAgentPayload elems)))
              CACHE_TTL_HOURS [("zip_code", zc), ("years", toString yrs ++ "y")])) := by
  simp [zip_fetch, mkAgentPayload, JVal.dictGet, objLookup, jStrEq, pyIterate]

theorem zip_agg_step_row (acc : ℤ × ℚ) (cc : ℤ) (al : ℚ) :
    zip_agg_step acc (mkZipRow cc al) = some (acc.1 + cc, acc.2 + al * (cc : ℚ)) := by
  simp [zip_agg_step, mkZipRow, JVal.dictGet, objLookup, pyInt, pyFloat]

theorem zip_aggregate_rows (rows : List (ℤ × ℚ)) :
    zip_aggregate (rows.map (fun p => mkZipRow p.1 p.2))
      = some ((rows.map Prod.fst).sum, (rows.map (fun p => p.2 * (p.1 : ℚ))).sum) := by
  suffices h : ∀ acc : ℤ × ℚ,
      (rows.map (fun p => mkZipRow p.1 p.2)).foldlM zip_agg_step acc
        = some (acc.1 + (rows.map Prod.fst).sum,
                acc.2 + (rows.map (fun p => p.2 * (p.1 : ℚ))).sum) by
    simpa [zip_aggregate] using h (0, 0)
  induction rows with
  | nil => intro acc; simp [List.foldlM]
  | cons hd tl ih =>
    intro acc
    simp only [List.map_cons, List.foldlM_cons, zip_agg_step_row, Option.bind_eq_bind,
      Option.some_bind, List.sum_cons]
    rw [ih]
    simp [add_assoc]


theorem parse_dump_county_row (r : FabricCountyClaimRow) :
    parseCountyClaimRow (dumpCountyClaimRow r) = some r := by
  cases r with
  | mk st cc ly pt cl ap =>
    cases st <;>
      simp [parseCountyClaimRow, dumpCountyClaimRow, objLookup, pydOptStr, pydStr, pydInt,
        pydFloat, optStrJ]

theorem filterMap_parse_dump (rs : List FabricCountyClaimRow) :
    (rs.map dumpCountyClaimRow).filterMap parseCountyClaimRow = rs := by
  rw [List.filterMap_map]
  have h : (parseCountyClaimRow ∘ dumpCountyClaimRow) = some := by
    funext r
    exact parse_dump_county_row r
  rw [h, List.filterMap_some]

theorem objLookup_append_single (fs : List (String × JVal)) (k k2 : String) (v : JVal)
    (h : k2 ≠ k) : objLookup (fs ++ [(k, v)]) k2 = objLookup fs k2 := by
  induction fs with
  | nil => simp [objLookup, Ne.symm h]
  | cons hd tl ih => by_cases hh : hd.1 = k2 <;> simp [objLookup, hh, ih]

theorem objLookup_append_self (fs : List (String × JVal)) (k : String) (v : JVal)
    (h : objLookup fs k = none) : objLookup (fs ++ [(k, v)]) k = some v := by
  induction fs with
  | nil => simp [objLookup]
  | cons hd tl ih =>
    obtain ⟨a, b⟩ := hd
    simp only [List.cons_append, objLookup] at h ⊢
    by_cases hh : a = k
    · rw [if_pos hh] at h
      exact absurd h (by simp)
    · rw [if_neg hh] at h ⊢
      exact ih h

theorem objLookup_objPop_ne (fs : List (String × JVal)) (k k2 : String) (h : k2 ≠ k) :
    objLookup (objPop fs k) k2 = objLookup fs k2 := by
  induction fs with
  | nil => rfl
  | cons hd tl ih =>
    obtain ⟨a, b⟩ := hd
    by_cases hh : a = k
    · subst hh
      have h1 : objPop ((a, b) :: tl) a = objPop tl a := by
        simp [objPop, List.filter_cons]
      rw [h1, ih]
      simp only [objLookup]
      rw [if_neg (fun e : a = k2 => h e.symm)]
    · have hbne : (a != k) = true := bne_iff_ne.mpr hh
      have h1 : objPop ((a, b) :: tl) k = (a, b) :: objPop tl k := by
        simp [objPop, List.filter_cons, hbne]
      rw [h1]
      simp only [objLookup]
      by_cases hh2 : a = k2
      · rw [if_pos hh2, if_pos hh2]
      · rw [if_neg hh2, if_neg hh2]
        exact ih

theorem objLookup_objPop_self (fs : List (String × JVal)) (k : String) :
    objLookup (objPop fs k) k = none := by
  induction fs with
  | nil => rfl
  | cons hd tl ih =>
    obtain ⟨a, b⟩ := hd
    by_cases hh : a = k
    · subst hh
      have h1 : objPop ((a, b) :: tl) a = objPop tl a := by
        simp [objPop, List.filter_cons]
      rw [h1]
      exact ih
    · have hbne : (a != k) = true := bne_iff_ne.mpr hh
      have h1 : objPop ((a, b) :: tl) k = (a, b) :: objPop tl k := by
        simp [objPop, List.filter_cons, hbne]
      rw [h1]
      simp only [objLookup]
      rw [if_neg hh]
      exact ih

theorem mapM_jObj_of_all {xs : List JVal} (h : xs.all (fun x => (jObj x).isSome) = true) :
    ∃ ys, xs.mapM jObj = some ys := by
  induction xs with
  | nil => exact ⟨[], rfl⟩
  | cons hd tl ih =>
    simp only [List.all_cons, Bool.and_eq_true] at h
    obtain ⟨ys, hys⟩ := ih h.2
    obtain ⟨fs, hfs⟩ := Option.isSome_iff_exists.mp h.1
    refine ⟨fs :: ys, ?_⟩
    rw [List.mapM_cons, hfs, hys]
    rfl

theorem upgradeHalf_ok (fs : List (String × JVal)) (tk rk lk : String)
    (h : legacyRowsOk ((objLookup fs lk).getD JVal.null) = true) :
    ∃ fs1, upgradeHalf fs tk rk lk = .ok fs1 ∧ objContains fs1 tk = true ∧
      (∀ k2, k2 ≠ tk → objLookup fs1 k2 = objLookup fs k2) ∧
      (objContains fs tk = false →
        ((_build_agent_table ((objLookup fs rk).getD JVal.null)).isSome = true ∨
          ((objLookup fs lk).getD JVal.null).truthy = true) →
        ∃ w, objLookup fs1 tk = some w ∧ w ≠ JVal.null) := by
  by_cases hc : objContains fs tk = true
  · refine ⟨fs, by simp [upgradeHalf, hc], hc, fun _ _ => rfl, fun hfalse _ => ?_⟩
    rw [hc] at hfalse
    exact absurd hfalse (by simp)
  · have hcf : objContains fs tk = false := by
      cases hx : objContains fs tk
      · rfl
      · exact absurd hx hc
    have hnone : objLookup fs tk = none := by
      unfold objContains at hcf
      cases hx : objLookup fs tk
      · rfl
      · rw [hx] at hcf
        simp at hcf
    have happ : ∀ w : JVal, objSet fs tk w = fs ++ [(tk, w)] := by
      intro w
      unfold objSet
      rw [hcf]
      simp
    have hcont : ∀ w : JVal, objContains (fs ++ [(tk, w)]) tk = true := by
      intro w
      unfold objContains
      rw [objLookup_append_self fs tk w hnone]
      rfl
    have hpres : ∀ (w : JVal) (k2 : String), k2 ≠ tk →
        objLookup (fs ++ [(tk, w)]) k2 = objLookup fs k2 :=
      fun w k2 hk2 => objLookup_append_single fs tk k2 w hk2
    unfold upgradeHalf
    rw [hcf]
    simp only [Bool.false_eq_true, if_false]
    cases hbuild : _build_agent_table ((objLookup fs rk).getD JVal.null) with
    | some t =>
      refine ⟨objSet fs tk (dumpAgentTable t), rfl, ?_, ?_, ?_⟩
      · rw [happ]
        exact hcont _
      · intro k2 hk2
        rw [happ]
        exact hpres _ k2 hk2
      · intro _ _
        refine ⟨dumpAgentTable t, ?_, by simp [dumpAgentTable]⟩
        rw [happ]
        exact objLookup_append_self fs tk _ hnone
    | none =>
      by_cases htr : ((objLookup fs lk).getD JVal.null).truthy = true
      · have hm : (match (objLookup fs lk).getD JVal.null with
            | JVal.arr xs => xs.all (fun x => (jObj x).isSome)
            | _ => false) = true := by
          unfold legacyRowsOk at h
          rw [htr] at h
          simpa using h
        rw [if_pos htr]
        cases hlv : (objLookup fs lk).getD JVal.null with
        | arr xs =>
          rw [hlv] at hm
          have hall : xs.all (fun x => (jObj x).isSome) = true := by simpa using hm
          obtain ⟨ys, hys⟩ := mapM_jObj_of_all hall
          simp only [legacyRowsTable, hys]
          refine ⟨objSet fs tk (dumpAgentTable
            { status := "success",
              column_count := (ys.head?).map (fun r => (r.length : ℤ)),
              row_count := some ((xs.length : ℤ)), summary := none, comments := none,
              response := ys, column_keys := _derive_column_keys ys }), rfl, ?_, ?_, ?_⟩
          · rw [happ]
            exact hcont _
          · intro k2 hk2
            rw [happ]
            exact hpres _ k2 hk2
          · intro _ _
            refine ⟨dumpAgentTable
              { status := "success",
                column_count := (ys.head?).map (fun r => (r.length : ℤ)),
                row_count := some ((xs.length : ℤ)), summary := none, comments := none,
                response := ys, column_keys := _derive_column_keys ys },
              ?_, by simp [dumpAgentTable]⟩
            rw [happ]
            exact objLookup_append_self fs tk _ hnone
        | null => rw [hlv] at hm; simp at hm
        | bool b => rw [hlv] at hm; simp at hm
        | int n => rw [hlv] at hm; simp at hm
        | num q => rw [hlv] at hm; simp at hm
        | str s => rw [hlv] at hm; simp at hm
        | obj gs => rw [hlv] at hm; simp at hm
      · have htrf : ((objLookup fs lk).getD JVal.null).truthy = false := by
          cases hx : ((objLookup fs lk).getD JVal.null).truthy
          · rfl
          · exact absurd hx htr
        rw [htrf]
        simp only [Bool.false_eq_true, if_false]
        refine ⟨objSet fs tk JVal.null, rfl, ?_, ?_, ?_⟩
        · rw [happ]
          exact hcont _
        · intro k2 hk2
          rw [happ]
          exact hpres _ k2 hk2
        · intro _ hdisj
          rcases hdisj with hb | ht
          · exact absurd hb (by simp)
          · exact ht.elim


/-! ### Claims -/

/-- C1: for every function id, case id and parameter list, writing with
`set_cached_response` and then reading with `get_cached_response` before the
TTL has elapsed returns the stored record, whose `response_data` field equals
the written payload, for any order in which the parameters are supplied. -/
theorem cache_write_read_roundtrip (σ : CacheState) (now tRead ttl : ℤ)
    (function_id case_id : String) (payload : JVal)
    (pWrite pRead : List (String × String))
    (hperm : pWrite.Perm pRead) (hfresh : tRead < now + ttl) :
    (get_cached_response (set_cached_response σ now function_id case_id payload ttl pWrite)
        tRead function_id case_id pRead).1
      = some { function_id := function_id, case_id := case_id, response_data := payload,
               cached_at := now, cache_expires_at := now + ttl, cache_params := pWrite } := by
  have hkey : get_cache_key function_id case_id pRead
      = get_cache_key function_id case_id pWrite :=
    (get_cache_key_perm function_id case_id hperm).symm
  have hhit : set_cached_response σ now function_id case_id payload ttl pWrite
      (get_cache_key function_id case_id pRead)
      = some { function_id := function_id, case_id := case_id, response_data := payload,
               cached_at := now, cache_expires_at := now + ttl, cache_params := pWrite } := by
    rw [hkey]
    exact Function.update_same _ _ _
  simp only [get_cached_response, hhit]
  rw [if_neg (by omega : ¬ (now + ttl < tRead))]

/-- Witness for C1: write with params in one order, read in the other. -/
theorem cache_write_read_roundtrip_witness :
    (get_cached_response
        (set_cached_response emptyCache 0 "A" "C-123" (JVal.str "payload") 72
          [("state", "TX"), ("county", "48229")])
        1 "A" "C-123" [("county", "48229"), ("state", "TX")]).1
      = some { function_id := "A", case_id := "C-123", response_data := JVal.str "payload",
               cached_at := 0, cache_expires_at := 0 + 72,
               cache_params := [("state", "TX"), ("county", "48229")] } :=
  cache_write_read_roundtrip emptyCache 0 1 72 "A" "C-123" (JVal.str "payload")
    [("state", "TX"), ("county", "48229")] [("county", "48229"), ("state", "TX")]
    (by decide) (by decide)

/-- C2 counterexample: the source expires a record only when
`datetime.utcnow() > expires_at` (strict), so a record written with `ttl = 0`
and read at the very same timestamp is returned as a HIT, while the claim
("valid iff now is strictly before expires_at"; "ttl=0 yields a miss")
demands a miss for this input. -/
theorem cache_ttl_boundary_counterexample :
    (get_cached_response (set_cached_response emptyCache 0 "A" "C-1" JVal.null 0 [])
        0 "A" "C-1" []).1
      = some { function_id := "A", case_id := "C-1", response_data := JVal.null,
               cached_at := 0, cache_expires_at := 0 + 0, cache_params := [] } := by
  simp only [get_cached_response, set_cached_response, Function.update_same]
  rw [if_neg (by decide : ¬ ((0 : ℤ) + 0 < 0))]

/-- C2 (amended): a stored record is valid iff `now ≤ expires_at` (the source
uses a strict `>` comparison for expiry), and a read that finds an expired
record (`expires_at < now`) deletes the backing record and returns a miss; in
particular a record written with `ttl = 0` yields a miss and is removed on any
read strictly after the write time. -/
theorem cache_validity_iff_and_expiry (σ : CacheState) (now : ℤ)
    (function_id case_id : String) (kwargs : List (String × String)) (entry : CacheRecord)
    (h : σ (get_cache_key function_id case_id kwargs) = some entry) :
    (now ≤ entry.cache_expires_at →
        get_cached_response σ now function_id case_id kwargs = (some entry, σ)) ∧
    (entry.cache_expires_at < now →
        (get_cached_response σ now function_id case_id kwargs).1 = none ∧
        (get_cached_response σ now function_id case_id kwargs).2
            (get_cache_key function_id case_id kwargs) = none) := by
  constructor
  · intro hle
    simp only [get_cached_response, h]
    rw [if_neg (by omega : ¬ (entry.cache_expires_at < now))]
  · intro hlt
    simp only [get_cached_response, h]
    rw [if_pos hlt]
    exact ⟨rfl, Function.update_same _ _ _⟩

/-- Witness for C2 (amended): a record written with `ttl = 0` at time `0` is a
miss at time `1`, and the backing record is gone afterwards. -/
theorem cache_validity_iff_and_expiry_witness :
    (get_cached_response (set_cached_response emptyCache 0 "B" "C-2" JVal.null 0 [])
        1 "B" "C-2" []).1 = none ∧
    (get_cached_response (set_cached_response emptyCache 0 "B" "C-2" JVal.null 0 [])
        1 "B" "C-2" []).2 (get_cache_key "B" "C-2" []) = none :=
  (cache_validity_iff_and_expiry _ 1 "B" "C-2" [] _ (Function.update_same _ _ _)).2
    (by decide)
/-- C4 counterexample: for the single row `{claims_count: -1, avg_loss: 5}` the
source computes `avg_loss = 0` (its guard is `total_claims > 0`), while the
claim prescribes the quotient `(5 * -1) / -1 = 5 ≠ 0`, since the total claim
count `-1` is not `0`. -/
theorem zip_stats_negative_total_counterexample :
    (get_zip_stats emptyCache 0 (some (mkAgentPayload [mkZipRow (-1) 5])) "C-1" "75001" 10
        true).map (fun res => res.1.map (fun s => (s.claim_frequency, s.avg_loss)))
      = .ok (some (-1, 0)) ∧
    ((5 : ℚ) * (((-1 : ℤ) : ℚ))) / (((-1 : ℤ) : ℚ)) ≠ (0 : ℚ) := by
  constructor
  · have hagg := zip_aggregate_rows [((-1 : ℤ), (5 : ℚ))]
    simp only [List.map_cons, List.map_nil, List.sum_cons, List.sum_nil] at hagg
    simp only [get_zip_stats, zip_fetch_payload]
    rw [show zip_aggregate [mkZipRow (-1) 5] = some (-1, 5 * ((-1 : ℤ) : ℚ)) by
      simpa using hagg]
    simp [Except.map, zipStatsOf]
  · norm_num

/-- C4 (amended): for every sequence of ZIP-stat rows, `get_zip_stats` returns
`claim_frequency` equal to the sum of `claims_count` and `avg_loss` equal to
`Σ(avg_loss_i * claims_count_i) / Σ(claims_count_i)` when the total claim
count is POSITIVE and `0` otherwise (the source guards the division with
`total_claims > 0`); in particular rows `[(10, 100), (5, 40)]` yield
`claim_frequency = 15` and `avg_loss = 80`. -/
theorem zip_stats_weighted_average :
    (∀ (rows : List (ℤ × ℚ)) (σ : CacheState) (now : ℤ) (cid zc : String) (yrs : ℤ),
      (get_zip_stats σ now (some (mkAgentPayload (rows.map (fun p => mkZipRow p.1 p.2))))
          cid zc yrs true).map
          (fun res => res.1.map (fun s => (s.claim_frequency, s.avg_loss)))
        = .ok (some ((rows.map Prod.fst).sum,
            if 0 < (rows.map Prod.fst).sum
            then (rows.map (fun p => p.2 * (p.1 : ℚ))).sum
                 / (((rows.map Prod.fst).sum : ℤ) : ℚ)
            else 0))) ∧
    (get_zip_stats emptyCache 0
        (some (mkAgentPayload [mkZipRow 10 100, mkZipRow 5 40])) "C-1" "75001" 10 true).map
        (fun res => res.1.map (fun s => (s.claim_frequency, s.avg_loss)))
      = .ok (some (15, 80)) := by
  have hgen : ∀ (rows : List (ℤ × ℚ)) (σ : CacheState) (now : ℤ) (cid zc : String) (yrs : ℤ),
      (get_zip_stats σ now (some (mkAgentPayload (rows.map (fun p => mkZipRow p.1 p.2))))
          cid zc yrs true).map
          (fun res => res.1.map (fun s => (s.claim_frequency, s.avg_loss)))
        = .ok (some ((rows.map Prod.fst).sum,
            if 0 < (rows.map Prod.fst).sum
            then (rows.map (fun p => p.2 * (p.1 : ℚ))).sum
                 / (((rows.map Prod.fst).sum : ℤ) : ℚ)
            else 0)) := by
    intro rows σ now cid zc yrs
    simp only [get_zip_stats, zip_fetch_payload, zip_aggregate_rows]
    simp [Except.map, zipStatsOf]
  refine ⟨hgen, ?_⟩
  have h2 := hgen [((10 : ℤ), (100 : ℚ)), ((5 : ℤ), (40 : ℚ))] emptyCache 0 "C-1" "75001" 10
  simp only [List.map_cons, List.map_nil, List.sum_cons, List.sum_nil] at h2
  rw [show ((([mkZipRow 10 100, mkZipRow 5 40] : List JVal)) =
      ([((10 : ℤ), (100 : ℚ)), ((5 : ℤ), (40 : ℚ))].map (fun p => mkZipRow p.1 p.2))) by simp]
  norm_num at h2 ⊢
  exact h2
/-- C5 counterexample: for one successfully parsed row with
`claims_count = -1` and `paid_total = 5` the source computes
`avg_paid_overall = 0` (its guard is `total_claims > 0`), while the claim
prescribes the quotient `5 / -1 = -5 ≠ 0`, since the total claim count `-1`
is not `0`. -/
theorem property_summary_negative_total_counterexample :
    (get_property_summary emptyCache 0
        (some (mkAgentPayload [dumpCountyClaimRow
          { state := none, county_code := "48229", loss_year := 2020, paid_total := 5,
            claims_count := -1, avg_paid_per_claim := 5 }]))
        "C-1" "TX" "48229" true).map
        (fun res => res.1.map (fun s => s.avg_paid_overall))
      = .ok (some 0) ∧ ((5 : ℚ) / (((-1 : ℤ) : ℚ))) ≠ (0 : ℚ) := by
  constructor
  · have hrows := filterMap_parse_dump
      [{ state := none, county_code := "48229", loss_year := 2020, paid_total := 5,
         claims_count := -1, avg_paid_per_claim := 5 }]
    simp only [List.map_cons, List.map_nil] at hrows
    simp only [get_property_summary, property_fetch_payload, hrows]
    simp [Except.map, propertyAggregate]
  · norm_num

/-- C5 (amended): for every list of successfully parsed property-summary rows,
`get_property_summary` returns `total_counties` equal to the number of
distinct `county_code` values, `total_claims` equal to the sum of
`claims_count`, and `avg_paid_overall` equal to `Σ paid_total / Σ
claims_count` when the total claim count is POSITIVE and `0` otherwise (the
source guards the division with `total_claims > 0`); with zero rows it
returns no summary (`none`) rather than a division-by-zero fault. -/
theorem property_summary_aggregation (rs : List FabricCountyClaimRow) (σ : CacheState)
    (now : ℤ) (cid st cc : String) :
    (get_property_summary σ now (some (mkAgentPayload (rs.map dumpCountyClaimRow)))
        cid st cc true).map (fun res => res.1.map (fun s =>
          (s.total_counties, s.total_claims, s.avg_paid_overall)))
      = .ok (if rs.isEmpty then none else some
          ((((rs.map FabricCountyClaimRow.county_code).dedup).length : ℤ),
           (rs.map FabricCountyClaimRow.claims_count).sum,
           if 0 < (rs.map FabricCountyClaimRow.claims_count).sum
           then (rs.map FabricCountyClaimRow.paid_total).sum
                / (((rs.map FabricCountyClaimRow.claims_count).sum : ℤ) : ℚ)
           else 0)) := by
  simp only [get_property_summary, property_fetch_payload, filterMap_parse_dump]
  by_cases h : rs.isEmpty
  · simp [h, Except.map]
  · simp [h, Except.map, propertyAggregate]

/-- C6 counterexample: in `get_zip_stats` a row whose `claims_count` fails
`int(...)` aborts the WHOLE fetch (the loop has no per-row try/except): with
one good row and one corrupt row the operation returns an absent report and
writes nothing, even though the valid subset aggregates fine — while the
claim demands that corrupted rows be dropped individually and processing
continue with the valid subset. -/
theorem zip_row_abort_counterexample :
    get_zip_stats emptyCache 0
        (some (mkAgentPayload [mkZipRow 10 100, JVal.obj [("claims_count", JVal.null)]]))
        "C-1" "75001" 10 true = .ok (none, emptyCache) ∧
    (zip_aggregate [mkZipRow 10 100]).isSome = true := by
  constructor
  · have habort : zip_aggregate [mkZipRow 10 100, JVal.obj [("claims_count", JVal.null)]]
        = none := by
      simp [zip_aggregate, List.foldlM, zip_agg_step_row, zip_agg_step, JVal.dictGet,
        objLookup, pyInt]
    simp only [get_zip_stats, if_true, zip_fetch_payload, habort]
  · rw [show ([mkZipRow 10 100] : List JVal)
        = ([((10 : ℤ), (100 : ℚ))].map (fun p => mkZipRow p.1 p.2)) by simp]
    rw [zip_aggregate_rows]
    rfl

/-- C6 (amended): the property-summary path drops unparseable rows
individually (each inside its own try/except) and aggregates the surviving
subset, returning an absent report only when no rows survive; the ZIP-stats
loop, however, has no per-row protection: a row whose fields fail numeric
coercion aborts the whole fetch, which then returns an absent report instead
of continuing with the valid subset. -/
theorem row_corruption_tolerance :
    (∀ (elems : List JVal) (σ : CacheState) (now : ℤ) (cid st cc : String),
      (get_property_summary σ now (some (mkAgentPayload elems)) cid st cc true).map
          (fun res => res.1.map (fun s => s.rows))
        = .ok (if (elems.filterMap parseCountyClaimRow).isEmpty then none
               else some (elems.filterMap parseCountyClaimRow))) ∧
    (∀ (elems : List JVal) (σ : CacheState) (now : ℤ) (cid zc : String) (yrs : ℤ),
      zip_aggregate elems = none →
      get_zip_stats σ now (some (mkAgentPayload elems)) cid zc yrs true
        = .ok (none, σ)) := by
  constructor
  · intro elems σ now cid st cc
    simp only [get_property_summary, property_fetch_payload]
    by_cases h : (elems.filterMap parseCountyClaimRow).isEmpty
    · simp [h, Except.map]
    · simp [h, Except.map]
      rfl
  · intro elems σ now cid zc yrs h
    simp only [get_zip_stats, if_true, zip_fetch_payload, h]

/-- Witness for C6 (amended): a ZIP response with one good row and one row
whose `avg_loss` is `None` makes the whole fetch return an absent report. -/
theorem row_corruption_tolerance_witness :
    get_zip_stats emptyCache 0
        (some (mkAgentPayload [mkZipRow 3 7, JVal.obj [("avg_loss", JVal.null)]]))
        "C-9" "02134" 5 true = .ok (none, emptyCache) :=
  row_corruption_tolerance.2 _ emptyCache 0 "C-9" "02134" 5
    (by simp [zip_aggregate, List.foldlM, zip_agg_step, mkZipRow, JVal.dictGet,
      objLookup, pyInt, pyFloat])

/-- C7 counterexample: a payload declaring `rows: 0` while one dict row is
kept: `_coerce_int` coerces the declared value to the integer `0`, yet the
built table's `row_count` is `1` (the kept-row count), because Python `or`
treats the coerced `0` as falsy — the claim says the source-declared count is
used whenever it coerces to an integer. -/
theorem build_table_row_count_zero_counterexample :
    (_build_agent_table (JVal.obj [("status", JVal.str "success"), ("rows", JVal.int 0),
        ("response", JVal.arr [JVal.obj [("a", JVal.int 1)]])])).map
        (fun t => t.row_count) = some (some 1) ∧
    _coerce_int (JVal.int 0) = some 0 := ⟨rfl, rfl⟩

/-- C7 (amended): for every dict payload successfully normalized into a table,
`row_count` equals the source-declared count when `_coerce_int` coerces it to
a NONZERO integer; otherwise (absent, non-numeric, or zero — Python `or`
treats `0` as falsy) it equals the number of kept dict rows. -/
theorem build_table_row_count (fs : List (String × JVal)) (t : FabricAgentTable)
    (h : _build_agent_table (JVal.obj fs) = some t) :
    t.row_count = some (
      match _coerce_int ((objLookup fs "rows").getD JVal.null) with
      | some n => if n ≠ 0 then n else (t.response.length : ℤ)
      | none => (t.response.length : ℤ)) := by
  simp only [_build_agent_table] at h
  split at h
  · injection h with h2
    subst h2
    cases hcoerce : _coerce_int ((objLookup fs "rows").getD JVal.null) <;>
      simp [agentRowCount, hcoerce]
  · cases h

/-- Witness for C7 (amended): a declared `rows: 5` with a single kept row
yields `row_count = 5`. -/
theorem build_table_row_count_witness :
    ({ status := "success", column_count := none, row_count := some 5, summary := none,
       comments := none, response := [[("a", JVal.int 1)]], column_keys := ["a"] }
        : FabricAgentTable).row_count
      = some (
        match _coerce_int ((objLookup [("status", JVal.str "success"), ("rows", JVal.int 5),
            ("response", JVal.arr [JVal.obj [("a", JVal.int 1)]])] "rows").getD JVal.null) with
        | some n => if n ≠ 0 then n
                    else ((([[("a", JVal.int 1)]] : List (List (String × JVal))).length : ℤ))
        | none => (([[("a", JVal.int 1)]] : List (List (String × JVal))).length : ℤ)) :=
  build_table_row_count
    [("status", JVal.str "success"), ("rows", JVal.int 5),
     ("response", JVal.arr [JVal.obj [("a", JVal.int 1)]])] _ rfl

/-- C9 counterexample: a stored payload whose legacy `severity_rows` list
contains a non-dict entry makes `_upgrade_cached_payload` raise
(`len(severity_rows[0])` / pydantic validation fail, outside any try/except),
while the claim says the upgrader returns without raising for every stored
payload mapping. -/
theorem upgrade_raises_counterexample :
    _upgrade_cached_payload (JVal.obj [("severity_rows", JVal.arr [JVal.int 42])])
      = .error "TypeError: legacy rows are not all dicts" := rfl

/-- C9 (amended): for every stored payload mapping whose legacy flat-row
fields (`severity_rows`, `large_losses`), when present and truthy, are lists
of dicts, the upgrader returns without raising a payload that has the
`severity_table` and `large_losses_table` keys present and the deprecated
keys removed; moreover each table key absent from the input is POPULATED
with a non-null table whenever rows existed — the embedded raw payload
builds a table, or the truthy legacy flat rows do — and is set to null only
when nothing usable was found. (For other payloads the legacy branch can
raise, as the counterexample shows.) -/
theorem upgrade_payload_schema (fs : List (String × JVal))
    (h1 : legacyRowsOk ((objLookup fs "severity_rows").getD JVal.null) = true)
    (h2 : legacyRowsOk ((objLookup fs "large_losses").getD JVal.null) = true) :
    ∃ out, _upgrade_cached_payload (JVal.obj fs) = .ok (JVal.obj out) ∧
      objContains out "severity_table" = true ∧
      objContains out "large_losses_table" = true ∧
      objContains out "severity_rows" = false ∧
      objContains out "large_losses" = false ∧
      (objContains fs "severity_table" = false →
        ((_build_agent_table ((objLookup fs "raw_severity").getD JVal.null)).isSome = true ∨
          ((objLookup fs "severity_rows").getD JVal.null).truthy = true) →
        ∃ w, objLookup out "severity_table" = some w ∧ w ≠ JVal.null) ∧
      (objContains fs "large_losses_table" = false →
        ((_build_agent_table ((objLookup fs "raw_large_losses").getD JVal.null)).isSome
            = true ∨
          ((objLookup fs "large_losses").getD JVal.null).truthy = true) →
        ∃ w, objLookup out "large_losses_table" = some w ∧ w ≠ JVal.null) := by
  obtain ⟨fs1, e1, c1, p1, q1⟩ := upgradeHalf_ok fs "severity_table" "raw_severity"
    "severity_rows" h1
  have h2b : legacyRowsOk ((objLookup fs1 "large_losses").getD JVal.null) = true := by
    rw [p1 _ (by decide)]
    exact h2
  obtain ⟨fs2, e2, c2, p2, q2⟩ := upgradeHalf_ok fs1 "large_losses_table"
    "raw_large_losses" "large_losses" h2b
  refine ⟨objPop (objPop fs2 "severity_rows") "large_losses", ?_, ?_, ?_, ?_, ?_, ?_, ?_⟩
  · simp [_upgrade_cached_payload, e1, e2]
  · unfold objContains
    rw [objLookup_objPop_ne _ _ _ (by decide), objLookup_objPop_ne _ _ _ (by decide),
      p2 _ (by decide)]
    exact c1
  · unfold objContains
    rw [objLookup_objPop_ne _ _ _ (by decide), objLookup_objPop_ne _ _ _ (by decide)]
    exact c2
  · unfold objContains
    rw [objLookup_objPop_ne _ _ _ (by decide), objLookup_objPop_self]
    rfl
  · unfold objContains
    rw [objLookup_objPop_self]
    rfl
  · intro hco hd
    obtain ⟨w, hw, hwn⟩ := q1 hco hd
    refine ⟨w, ?_, hwn⟩
    rw [objLookup_objPop_ne _ _ _ (by decide), objLookup_objPop_ne _ _ _ (by decide),
      p2 _ (by decide), hw]
  · intro hco hd
    have hco1 : objContains fs1 "large_losses_table" = false := by
      unfold objContains at hco ⊢
      rw [p1 "large_losses_table" (by decide)]
      exact hco
    have hd1 : (_build_agent_table ((objLookup fs1 "raw_large_losses").getD
          JVal.null)).isSome = true ∨
        ((objLookup fs1 "large_losses").getD JVal.null).truthy = true := by
      rw [p1 "raw_large_losses" (by decide), p1 "large_losses" (by decide)]
      exact hd
    obtain ⟨w, hw, hwn⟩ := q2 hco1 hd1
    refine ⟨w, ?_, hwn⟩
    rw [objLookup_objPop_ne _ _ _ (by decide), objLookup_objPop_ne _ _ _ (by decide), hw]

/-- Witness for C9 (amended): a legacy payload with dict-shaped
`severity_rows` and no current-schema keys upgrades cleanly, and its
`severity_table` is populated with a non-null table (the legacy rows
existed). -/
theorem upgrade_payload_schema_witness :
    ∃ out, _upgrade_cached_payload (JVal.obj
        [("severity_rows", JVal.arr [JVal.obj [("loss_year", JVal.int 2020)]]),
         ("county_code", JVal.str "48229")])
      = .ok (JVal.obj out) ∧
      objContains out "severity_table" = true ∧
      objContains out "large_losses_table" = true ∧
      objContains out "severity_rows" = false ∧
      objContains out "large_losses" = false ∧
      (∃ w, objLookup out "severity_table" = some w ∧ w ≠ JVal.null) := by
  obtain ⟨out, e, c1, c2, c3, c4, q1, q2⟩ := upgrade_payload_schema
    [("severity_rows", JVal.arr [JVal.obj [("loss_year", JVal.int 2020)]]),
     ("county_code", JVal.str "48229")] (by rfl) (by rfl)
  exact ⟨out, e, c1, c2, c3, c4, q1 (by rfl) (Or.inr (by rfl))⟩

/-- C8 counterexample: `get_property_summary` with `force_refresh = true` and a
failing fetch leaves a pre-existing cache entry for the key in place, while the
claim demands that the entry be invalidated (deleted) before the fetch. -/
theorem force_refresh_no_invalidate_counterexample :
    ((get_property_summary
        (set_cached_response emptyCache 0 "A" "C-1" (JVal.str "stale") 72
          [("state", "TX"), ("county", "48229")])
        1 none "C-1" "TX" "48229" true).map
      (fun res => (res.2 (get_cache_key "A" "C-1"
        [("state", "TX"), ("county", "48229")])).isSome)) = .ok true := rfl

/-- C8 (amended): `force_refresh` bypasses the cache read and performs the
fresh fetch against the unchanged cache state; it does not delete an existing
entry first (a successful fetch merely overwrites it). Deletion before the
forced fetch is performed by the `refresh_*` wrappers through
`invalidate_cache`, which removes the entry for the key. -/
theorem force_refresh_bypasses_cache :
    (∀ (σ : CacheState) (now : ℤ) (raw : Option JVal) (cid st cc : String),
      get_property_summary σ now raw cid st cc true
        = .ok (property_fetch σ now raw cid st cc)) ∧
    (∀ (σ : CacheState) (now : ℤ) (raw : Option JVal) (cid zc : String) (yrs : ℤ),
      get_zip_stats σ now raw cid zc yrs true = .ok (zip_fetch σ now raw cid zc yrs)) ∧
    (∀ (σ : CacheState) (now : ℤ) (raw : Option JVal) (cid ccd : String) (ml : ℤ),
      get_risk_assessment σ now raw cid ccd ml true
        = .ok (risk_fetch σ now raw cid ccd ml)) ∧
    (∀ (σ : CacheState) (fid cid : String) (ps : List (String × String)),
      (invalidate_cache σ fid cid ps).2 (get_cache_key fid cid ps) = none) ∧
    (∀ (σ : CacheState) (now : ℤ) (raw : Option JVal) (cid st cc : String),
      refresh_property_summary σ now raw cid st cc
        = get_property_summary
            ((invalidate_cache σ "A" cid [("state", st), ("county", cc)]).2)
            now raw cid st cc true) := by
  refine ⟨fun σ now raw cid st cc => rfl, fun σ now raw cid zc yrs => rfl,
    fun σ now raw cid ccd ml => rfl, ?_, fun σ now raw cid st cc => rfl⟩
  intro σ fid cid ps
  unfold invalidate_cache
  match h : σ (get_cache_key fid cid ps) with
  | none => simp [h]
  | some entry => simp [h, Function.update_same]

/-- C3 counterexample: `get_zip_stats` finding a cached record whose
`response_data` is an empty dict raises the pydantic `ValidationError` to its
caller (line 60 sits outside any try/except) instead of resolving to a report
or an absent result, while the claim says no exposed query operation ever
raises for cache-related failures. -/
theorem zip_stats_raises_counterexample :
    get_zip_stats
        (set_cached_response emptyCache 0 "B" "C-1" (JVal.obj []) 72
          [("zip_code", "75001"), ("years", "10y")])
        1 none "C-1" "75001" 10 false
      = .error "pydantic ValidationError: FabricZipClaimStats" := rfl

/-- C3 (amended): `get_property_summary` always resolves to a report or an
absent result and never raises (its cache-hit validation is inside its own
try/except, and the whole fetch path is inside another); `get_zip_stats` and
`get_risk_assessment` can raise, but only when the cache consult produced a
hit whose stored payload fails the unprotected validation (B, line 60) or
upgrade/validation (C, lines 58-59); on a miss, a forced refresh, or a hit
with a valid payload they also resolve to a report or an absent result. -/
theorem never_raises_except_corrupt_hit :
    (∀ (σ : CacheState) (now : ℤ) (raw : Option JVal) (cid st cc : String) (fr : Bool),
      ∃ v, get_property_summary σ now raw cid st cc fr = .ok v) ∧
    (∀ (σ : CacheState) (now : ℤ) (raw : Option JVal) (cid zc : String) (yrs : ℤ)
        (fr : Bool) (e : String),
      get_zip_stats σ now raw cid zc yrs fr = .error e →
      ∃ entry, (if fr then (none, σ)
          else get_cached_response σ now "B" cid
            [("zip_code", zc), ("years", toString yrs ++ "y")]).1 = some entry ∧
        parseZipClaimStats entry.response_data = none) ∧
    (∀ (σ : CacheState) (now : ℤ) (raw : Option JVal) (cid ccd : String) (ml : ℤ)
        (fr : Bool) (e : String),
      get_risk_assessment σ now raw cid ccd ml fr = .error e →
      ∃ entry, (if fr then (none, σ)
          else get_cached_response σ now "C" cid
            [("county", ccd), ("min_loss", toString ml)]).1 = some entry ∧
        ((∃ u, _upgrade_cached_payload entry.response_data = .ok u ∧
            parseRiskAssessment u = none) ∨
          _upgrade_cached_payload entry.response_data = .error e)) := by
  refine ⟨?_, ?_, ?_⟩
  · intro σ now raw cid st cc fr
    rcases hcons : (if fr then (none, σ) else get_cached_response σ now "A" cid
      [("state", st), ("county", cc)]) with ⟨copt, σ1⟩
    cases copt with
    | none =>
      exact ⟨property_fetch σ1 now raw cid st cc, by simp only [get_property_summary, hcons]⟩
    | some entry =>
      cases hp : parsePropertySummary entry.response_data with
      | none =>
        exact ⟨property_fetch σ1 now raw cid st cc,
          by simp only [get_property_summary, hcons, hp]⟩
      | some s => exact ⟨(some s, σ1), by simp only [get_property_summary, hcons, hp]⟩
  · intro σ now raw cid zc yrs fr e herr
    rcases hcons : (if fr then (none, σ) else get_cached_response σ now "B" cid
      [("zip_code", zc), ("years", toString yrs ++ "y")]) with ⟨copt, σ1⟩
    cases copt with
    | none =>
      simp only [get_zip_stats, hcons] at herr
      exact Except.noConfusion herr
    | some entry =>
      cases hp : parseZipClaimStats entry.response_data with
      | some s =>
        simp only [get_zip_stats, hcons, hp] at herr
        exact Except.noConfusion herr
      | none => exact ⟨entry, rfl, hp⟩
  · intro σ now raw cid ccd ml fr e herr
    rcases hcons : (if fr then (none, σ) else get_cached_response σ now "C" cid
      [("county", ccd), ("min_loss", toString ml)]) with ⟨copt, σ1⟩
    cases copt with
    | none =>
      simp only [get_risk_assessment, hcons] at herr
      exact Except.noConfusion herr
    | some entry =>
      cases hu : _upgrade_cached_payload entry.response_data with
      | error e2 =>
        simp only [get_risk_assessment, hcons, hu, Except.error.injEq] at herr
        exact ⟨entry, rfl, Or.inr (by rw [hu, herr])⟩
      | ok u =>
        cases hp : parseRiskAssessment u with
        | some a =>
          simp only [get_risk_assessment, hcons, hu, hp] at herr
          exact Except.noConfusion herr
        | none => exact ⟨entry, rfl, Or.inl ⟨u, hu, hp⟩⟩

/-- Witness for C3 (amended): a concrete corrupt cached record for Function C
whose raise is traced back to the failing upgrade. -/
theorem never_raises_except_corrupt_hit_witness :
    ∃ entry, (if false then (none, set_cached_response emptyCache 0 "C" "C-7"
          (JVal.obj [("severity_rows", JVal.arr [JVal.int 1])]) 72
          [("county", "48229"), ("min_loss", "1000")])
        else get_cached_response (set_cached_response emptyCache 0 "C" "C-7"
          (JVal.obj [("severity_rows", JVal.arr [JVal.int 1])]) 72
          [("county", "48229"), ("min_loss", "1000")]) 1 "C" "C-7"
          [("county", "48229"), ("min_loss", toString (1000 : ℤ))]).1 = some entry ∧
      ((∃ u, _upgrade_cached_payload entry.response_data = .ok u ∧
          parseRiskAssessment u = none) ∨
        _upgrade_cached_payload entry.response_data
          = .error "TypeError: legacy rows are not all dicts") :=
  never_raises_except_corrupt_hit.2.2
    (set_cached_response emptyCache 0 "C" "C-7"
      (JVal.obj [("severity_rows", JVal.arr [JVal.int 1])]) 72
      [("county", "48229"), ("min_loss", "1000")])
    1 none "C-7" "48229" 1000 false "TypeError: legacy rows are not all dicts" rfl

/-- C10: the cache key is built from the function id, the case id and the
non-empty parameter VALUES sorted by parameter name; the names themselves are
not part of the key, so `{state: "TX"}` and `{county: "TX"}` produce the same
key and the two logical entries share one cache record. -/
theorem cache_key_ignores_param_names :
    get_cache_key "A" "C-1" [("state", "TX")] = get_cache_key "A" "C-1" [("county", "TX")] ∧
    get_cache_key "A" "C-1" [("state", "TX")] = "fabric_A_C-1_TX.json" ∧
    (get_cached_response
        (set_cached_response emptyCache 0 "A" "C-1" (JVal.str "written-under-state") 72
          [("state", "TX")])
        1 "A" "C-1" [("county", "TX")]).1
      = some { function_id := "A", case_id := "C-1",
               response_data := JVal.str "written-under-state",
               cached_at := 0, cache_expires_at := 0 + 72,
               cache_params := [("state", "TX")] } :=
  ⟨by decide, by decide, rfl⟩

end AU
